import Mathlib

/-!
Verification development for the go-network-file repository.

The Go sources are shallowly embedded as executable Lean definitions:
  - http_codes.go  : error kinds, the status-code tables, writeErrorToResponseWriter
  - concurrent_readseeker.go / concurrent_writeseeker.go : the offset-caching
    multiplexers, modelled as explicit state machines over an abstract
    underlying seekable handle
  - server.go (the variant without httprouter) : FileServer state, ServeHTTP
    routing, the five verb handlers, and the registration functions
  - reader.go (the X-IsEOF protocol variant) : the client-side read decoding

Machine strings are Lean String, byte buffers are List Nat, and the
net/http ResponseWriter is modelled with its documented contract: the
header map is mutable, but only the headers present at the moment
WriteHeader is first called are part of the sent response.
-/

namespace NetworkFile

/-- Domain error values used by server and client.  The nine named
constructors are the closed set appearing in the code tables of
http_codes.go; fileIDTaken models ErrFileIDTaken of server.go and
other models an arbitrary unmapped Go error with its text. -/
inductive Err where
  | eof
  | unexpectedEOF
  | shortBuffer
  | shortWrite
  | closedPipe
  | noProgress
  | unauthorized
  | unknownFile
  | unsupportedOperation
  | fileIDTaken
  | other (msg : String)
deriving DecidableEq, Repr

/-- The Error() text of each error value, as in the Go sources and the
Go standard library. -/
def Err.text : Err → String
  | .eof => "EOF"
  | .unexpectedEOF => "unexpected EOF"
  | .shortBuffer => "short buffer"
  | .shortWrite => "short write"
  | .closedPipe => "io: read/write on closed pipe"
  | .noProgress => "multiple Read calls return no data or error"
  | .unauthorized => "unauthorized: wrong secret key"
  | .unknownFile => "not found: unknown file"
  | .unsupportedOperation => "unsupported operation"
  | .fileIDTaken => "fileID is already being used"
  | .other msg => msg

/-- Custom status code constants from http_codes.go. -/
def HTTPCodeEOF : Nat := 480
def HTTPCodeUnexpectedEOF : Nat := 481
def HTTPCodeShortBuffer : Nat := 482
def HTTPCodeShortWrite : Nat := 483
def HTTPCodeClosedPipe : Nat := 484
def HTTPCodeNoProgress : Nat := 486
def HTTPCodeUnknownError : Nat := 490
def HTTPCodeUnsupportedOperation : Nat := 491

/-- The HTTPCodeToErr map of http_codes.go as an association list. -/
def httpCodeErrTable : List (Nat × Err) :=
  [(401, .unauthorized),
   (404, .unknownFile),
   (HTTPCodeEOF, .eof),
   (HTTPCodeUnexpectedEOF, .unexpectedEOF),
   (HTTPCodeShortBuffer, .shortBuffer),
   (HTTPCodeShortWrite, .shortWrite),
   (HTTPCodeClosedPipe, .closedPipe),
   (HTTPCodeNoProgress, .noProgress),
   (HTTPCodeUnsupportedOperation, .unsupportedOperation)]

/-- The errToHTTPCode map of http_codes.go as an association list. -/
def errCodeTable : List (Err × Nat) :=
  [(.unauthorized, 401),
   (.unknownFile, 404),
   (.eof, HTTPCodeEOF),
   (.unexpectedEOF, HTTPCodeUnexpectedEOF),
   (.shortBuffer, HTTPCodeShortBuffer),
   (.shortWrite, HTTPCodeShortWrite),
   (.closedPipe, HTTPCodeClosedPipe),
   (.noProgress, HTTPCodeNoProgress),
   (.unsupportedOperation, HTTPCodeUnsupportedOperation)]

/-- Lookup in the HTTPCodeToErr map. -/
def HTTPCodeToErr (code : Nat) : Option Err :=
  httpCodeErrTable.lookup code

/-- Lookup in the errToHTTPCode map. -/
def errToHTTPCode (e : Err) : Option Nat :=
  errCodeTable.lookup e

/-- UTF8 bytes of a string, used where Go converts a string to a byte
slice for a response body. -/
def strBytes (s : String) : List Nat :=
  s.toUTF8.toList.map (fun b => b.toNat)

/-- Model of net/http ResponseWriter.  headers is the live header map
(Header().Set mutates it at any time); status and sentHeaders are fixed
by the first WriteHeader call: per the net/http contract, changing the
header map after WriteHeader has no effect on the sent response, so the
sent headers are the snapshot taken when WriteHeader first runs. -/
structure ResponseWriter where
  headers : String → Option String
  status : Option Nat
  sentHeaders : String → Option String
  body : List Nat

/-- A fresh ResponseWriter: no headers, no status, empty body. -/
def freshRW : ResponseWriter :=
  { headers := fun _ => none, status := none, sentHeaders := fun _ => none, body := [] }

/-- Header().Set: replaces the value for a key in the live map. -/
def ResponseWriter.set (rw : ResponseWriter) (k v : String) : ResponseWriter :=
  { rw with headers := Function.update rw.headers k (some v) }

/-- WriteHeader: the first call fixes the status and snapshots the
header map; later calls are superfluous and ignored. -/
def ResponseWriter.writeHeader (rw : ResponseWriter) (code : Nat) : ResponseWriter :=
  match rw.status with
  | some _ => rw
  | none => { rw with status := some code, sentHeaders := rw.headers }

/-- Write: an implicit WriteHeader(200) if none was sent, then append
the bytes to the body. -/
def ResponseWriter.writeBytes (rw : ResponseWriter) (bs : List Nat) : ResponseWriter :=
  let rw := rw.writeHeader 200
  { rw with body := rw.body ++ bs }

/-- writeErrorToResponseWriter of http_codes.go: mapped errors become a
bare status; unmapped errors become status 490 with the error text as
body. -/
def writeErrorToResponseWriter (rw : ResponseWriter) (e : Err) : ResponseWriter :=
  match errToHTTPCode e with
  | none => (rw.writeHeader HTTPCodeUnknownError).writeBytes (strBytes e.text)
  | some code => rw.writeHeader code

/-! ### Offset-caching multiplexers

concurrent_readseeker.go and concurrent_writeseeker.go wrap an arbitrary
io.ReadSeeker / io.WriteSeeker.  The underlying handle is modelled as an
abstract state machine: a state type sigma plus a seek and a read (or
write) transition, each returning the new state, the returned count and
an optional error (errors are identified by a Nat payload since only
propagation matters).  Cursors are identified by Nat; every cursor
starts with logical offset 0, mirroring newly allocated cursor structs,
and the lastChange pointer is an Option Nat (none models the initial
nil pointer).  Buffer contents are irrelevant to these two files, so
reads and writes carry only the buffer length. -/

/-- The whence argument of Seek. -/
inductive Whence where
  | seekStart
  | seekCurrent
  | seekEnd
deriving DecidableEq, Repr

/-- Abstract model of an io.ReadSeeker: transition functions of a state
machine.  Result triples are (new state, returned count, error). -/
structure ReadSeekSrc (σ : Type) where
  seek : σ → Int → Whence → σ × Int × Option Nat
  read : σ → Nat → σ × Nat × Option Nat

/-- Abstract model of an io.WriteSeeker. -/
structure WriteSeekSrc (σ : Type) where
  seek : σ → Int → Whence → σ × Int × Option Nat
  write : σ → Nat → σ × Nat × Option Nat

/-- State of a concurrentReadSeeker together with all of its cursors:
the underlying source state, the lastChange pointer, and the stored
logical offset of every cursor. -/
structure ConcurrentReadSeeker (σ : Type) where
  src : σ
  lastChange : Option Nat
  offsets : Nat → Int

/-- State of a concurrentWriteSeeker together with all of its cursors. -/
structure ConcurrentWriteSeeker (σ : Type) where
  src : σ
  lastChange : Option Nat
  offsets : Nat → Int

/-- Initial multiplexer state: fresh source, nil lastChange, all cursor
offsets zero. -/
def initRS {σ : Type} (s0 : σ) : ConcurrentReadSeeker σ :=
  { src := s0, lastChange := none, offsets := fun _ => 0 }

/-- Initial write multiplexer state. -/
def initWS {σ : Type} (s0 : σ) : ConcurrentWriteSeeker σ :=
  { src := s0, lastChange := none, offsets := fun _ => 0 }

/-- readSeeker.Read of concurrent_readseeker.go for cursor c with a
buffer of length plen.  Returns the new state, the count, the error,
and (instrumentation) whether the underlying Seek was invoked.
Faithful to the source: when lastChange differs from this cursor, the
source is sought to the stored offset, the STORED OFFSET IS OVERWRITTEN
with the value the seek returned, and only then is the error checked;
on seek success lastChange is set to this cursor, the read is issued
and the offset advanced by the count read. -/
def readSeekerRead {σ : Type} (B : ReadSeekSrc σ) (s : ConcurrentReadSeeker σ)
    (c : Nat) (plen : Nat) : ConcurrentReadSeeker σ × Nat × Option Nat × Bool :=
  if s.lastChange = some c then
    let r := B.read s.src plen
    ({ s with src := r.1,
              offsets := Function.update s.offsets c (s.offsets c + r.2.1) },
     r.2.1, r.2.2, false)
  else
    let sk := B.seek s.src (s.offsets c) .seekStart
    match sk.2.2 with
    | some e =>
        ({ s with src := sk.1, offsets := Function.update s.offsets c sk.2.1 },
         0, some e, true)
    | none =>
        let r := B.read sk.1 plen
        ({ src := r.1, lastChange := some c,
           offsets := Function.update s.offsets c (sk.2.1 + r.2.1) },
         r.2.1, r.2.2, true)

/-- readSeeker.Seek of concurrent_readseeker.go: unconditionally marks
this cursor as lastChange, delegates to the underlying seek and stores
the returned offset. -/
def readSeekerSeek {σ : Type} (B : ReadSeekSrc σ) (s : ConcurrentReadSeeker σ)
    (c : Nat) (off : Int) (w : Whence) : ConcurrentReadSeeker σ × Int × Option Nat :=
  let sk := B.seek s.src off w
  ({ src := sk.1, lastChange := some c,
     offsets := Function.update s.offsets c sk.2.1 },
   sk.2.1, sk.2.2)

/-- writeSeeker.Write of concurrent_writeseeker.go, structurally the
same algorithm as readSeeker.Read. -/
def writeSeekerWrite {σ : Type} (B : WriteSeekSrc σ) (s : ConcurrentWriteSeeker σ)
    (c : Nat) (plen : Nat) : ConcurrentWriteSeeker σ × Nat × Option Nat × Bool :=
  if s.lastChange = some c then
    let r := B.write s.src plen
    ({ s with src := r.1,
              offsets := Function.update s.offsets c (s.offsets c + r.2.1) },
     r.2.1, r.2.2, false)
  else
    let sk := B.seek s.src (s.offsets c) .seekStart
    match sk.2.2 with
    | some e =>
        ({ s with src := sk.1, offsets := Function.update s.offsets c sk.2.1 },
         0, some e, true)
    | none =>
        let r := B.write sk.1 plen
        ({ src := r.1, lastChange := some c,
           offsets := Function.update s.offsets c (sk.2.1 + r.2.1) },
         r.2.1, r.2.2, true)

/-- writeSeeker.Seek of concurrent_writeseeker.go. -/
def writeSeekerSeek {σ : Type} (B : WriteSeekSrc σ) (s : ConcurrentWriteSeeker σ)
    (c : Nat) (off : Int) (w : Whence) : ConcurrentWriteSeeker σ × Int × Option Nat :=
  let sk := B.seek s.src off w
  ({ src := sk.1, lastChange := some c,
     offsets := Function.update s.offsets c sk.2.1 },
   sk.2.1, sk.2.2)

/-- One operation issued through some cursor of a read multiplexer. -/
inductive RSOp where
  | read (c : Nat) (plen : Nat)
  | seek (c : Nat) (off : Int) (w : Whence)
deriving DecidableEq, Repr

/-- One operation issued through some cursor of a write multiplexer. -/
inductive WSOp where
  | write (c : Nat) (plen : Nat)
  | seek (c : Nat) (off : Int) (w : Whence)
deriving DecidableEq, Repr

/-- A source is lawful for a position observation pos when a successful
seek leaves the source positioned at the returned offset and a read
advances the position by exactly the returned count (the contract of a
well-behaved file handle; reads may still error). -/
def LawfulReadSrc {σ : Type} (B : ReadSeekSrc σ) (pos : σ → Int) : Prop :=
  (∀ s off w, (B.seek s off w).2.2 = none → pos (B.seek s off w).1 = (B.seek s off w).2.1) ∧
  (∀ s plen, pos (B.read s plen).1 = pos s + (B.read s plen).2.1)

/-- Lawfulness for a write source. -/
def LawfulWriteSrc {σ : Type} (B : WriteSeekSrc σ) (pos : σ → Int) : Prop :=
  (∀ s off w, (B.seek s off w).2.2 = none → pos (B.seek s off w).1 = (B.seek s off w).2.1) ∧
  (∀ s plen, pos (B.write s plen).1 = pos s + (B.write s plen).2.1)

/-- Trace checker for read multiplexer runs.  For every step it checks
the two claimed properties: a physical seek is invoked inside Read only
when the lastChange pointer differs from the calling cursor, and after
a successful operation the physical position of the source equals the
calling cursor stored logical offset. -/
def readSeekerTraceOK {σ : Type} (B : ReadSeekSrc σ) (pos : σ → Int) :
    ConcurrentReadSeeker σ → List RSOp → Bool
  | _, [] => true
  | s, .read c plen :: rest =>
      let r := readSeekerRead B s c plen
      (!r.2.2.2 || decide (¬ s.lastChange = some c)) &&
      (!r.2.2.1.isNone || decide (pos r.1.src = r.1.offsets c)) &&
      readSeekerTraceOK B pos r.1 rest
  | s, .seek c off w :: rest =>
      let r := readSeekerSeek B s c off w
      (!r.2.2.isNone || decide (pos r.1.src = r.1.offsets c)) &&
      readSeekerTraceOK B pos r.1 rest

/-- Trace checker for write multiplexer runs. -/
def writeSeekerTraceOK {σ : Type} (B : WriteSeekSrc σ) (pos : σ → Int) :
    ConcurrentWriteSeeker σ → List WSOp → Bool
  | _, [] => true
  | s, .write c plen :: rest =>
      let r := writeSeekerWrite B s c plen
      (!r.2.2.2 || decide (¬ s.lastChange = some c)) &&
      (!r.2.2.1.isNone || decide (pos r.1.src = r.1.offsets c)) &&
      writeSeekerTraceOK B pos r.1 rest
  | s, .seek c off w :: rest =>
      let r := writeSeekerSeek B s c off w
      (!r.2.2.isNone || decide (pos r.1.src = r.1.offsets c)) &&
      writeSeekerTraceOK B pos r.1 rest

/-- Trace checker for the seek-invocation property alone: at every
Read step of a run, a physical seek is invoked only when the
lastChange pointer differs from the calling cursor.  This needs no
position observation and holds for every source. -/
def readSeekerSeekFlagOK {σ : Type} (B : ReadSeekSrc σ) :
    ConcurrentReadSeeker σ → List RSOp → Bool
  | _, [] => true
  | s, .read c plen :: rest =>
      let r := readSeekerRead B s c plen
      (!r.2.2.2 || decide (¬ s.lastChange = some c)) &&
      readSeekerSeekFlagOK B r.1 rest
  | s, .seek c off w :: rest =>
      readSeekerSeekFlagOK B (readSeekerSeek B s c off w).1 rest

/-- Trace checker for the seek-invocation property of write
multiplexer runs. -/
def writeSeekerSeekFlagOK {σ : Type} (B : WriteSeekSrc σ) :
    ConcurrentWriteSeeker σ → List WSOp → Bool
  | _, [] => true
  | s, .write c plen :: rest =>
      let r := writeSeekerWrite B s c plen
      (!r.2.2.2 || decide (¬ s.lastChange = some c)) &&
      writeSeekerSeekFlagOK B r.1 rest
  | s, .seek c off w :: rest =>
      writeSeekerSeekFlagOK B (writeSeekerSeek B s c off w).1 rest

/-! ### The underlying storage collaborator

The registry of server.go stores io.ReaderAt / io.WriterAt handles.
The spec treats the storage as an external collaborator (typically a
local file); it is modelled here as a byte list reachable through a
heap of store objects, so that a reader and a writer registered under
the same identifier can share one store.  storeReadAt and storeWriteAt
follow the io.ReaderAt / io.WriterAt contract as implemented by
os.File: ReadAt returns the available bytes and io.EOF when fewer than
requested were read; WriteAt writes the full buffer, extending the file
with zero bytes when the offset is past the end. -/

/-- A heap of store objects; every reference holds a byte list. -/
abbrev Heap : Type := Nat → List Nat

/-- os.File.ReadAt on a byte list: the bytes found at the offset (at
most len of them) and io.EOF when fewer than len were available. -/
def storeReadAt (data : List Nat) (len : Nat) (off : Nat) :
    List Nat × Option Err :=
  let bytes := (data.drop off).take len
  (bytes, if bytes.length < len then some .eof else none)

/-- os.File.WriteAt on a byte list: overwrites len b bytes at the
offset, first padding with zero bytes when the offset is past the end.
An empty write changes nothing. -/
def storeWriteAt (data b : List Nat) (off : Nat) : List Nat :=
  if b.isEmpty then data
  else
    let padded := data ++ List.replicate (off - data.length) 0
    padded.take off ++ b ++ padded.drop (off + b.length)

/-! ### FileServer data model (server.go, the routerless variant) -/

/-- FileID is an opaque identifier; Go strings are byte slices, so it
is modelled as a character list (request paths are character lists and
the identifier is the path without its first character). -/
abbrev FileID : Type := List Char

/-- FileInfo of file.go, the JSON-encoded stat snapshot. -/
structure FileInfo where
  FileName : String
  FileSize : Int
  FileModTime : Int
  FileMode : Nat
  FileIsDir : Bool
deriving DecidableEq, Repr

/-- A registered handle: the store object it is backed by, plus the
optional capabilities discovered by type assertion in server.go.
statInfo none models a handle that is not a Statter; some models the
Stat result (ok carries the FileInfo derived via GetFileInfo).
closer none models a handle that is not an io.Closer; some carries the
result its Close call would return. -/
structure Handle where
  ref : Nat
  statInfo : Option (Except Err FileInfo)
  closer : Option (Option Err)

/-- FileServer state: shared secret, the two registries, and the
policy flags, as in the FileServer struct of server.go. -/
structure FileServer where
  sharedSecret : String
  readers : FileID → Option Handle
  writers : FileID → Option Handle
  allowStat : Bool
  allowClose : Bool
  allowNormalGET : Bool
  discloseFilenames : Bool
  writeBufferSize : Nat

/-- HTTP method of a request; put and otherMethod fall to the default
branch of the method switch (405). -/
inductive Method where
  | options
  | get
  | patch
  | delete
  | put
  | otherMethod
deriving DecidableEq, Repr

/-- The X-Range request header: absent, present but not of the form
int-dash-int (fmt.Sscanf fails), or carrying an offset and a length. -/
inductive RangeHdr where
  | absent
  | malformed
  | range (off len : Int)
deriving DecidableEq, Repr

/-- An incoming HTTP request, projected to the fields server.go reads:
method, URL path, the X-SharedSecret header, the shared-secret query
parameter, the X-Range header and the body bytes.  An absent header or
query parameter is the empty string, as with Go Header().Get. -/
structure Request where
  method : Method
  path : List Char
  secretHeader : String
  secretQuery : String
  rangeHdr : RangeHdr
  body : List Nat

/-- The shared secret a request presents: the X-SharedSecret header,
or the shared-secret query parameter when the header is empty
(ServeHTTP lines 125 to 128). -/
def presentedSecret (req : Request) : String :=
  if req.secretHeader = "" then req.secretQuery else req.secretHeader

/-- Events recording the calls a request performs on registered
underlying handles. -/
inductive HandleEvent where
  | readAt (id : FileID) (off len : Int)
  | wroteAt (id : FileID) (off len : Int)
  | statted (id : FileID)
  | closedHandle (id : FileID)
  | servedFull (id : FileID)
deriving DecidableEq, Repr

/-- fmt.Sprintf of a dash-separated pair of integers, used for the
X-Range response header. -/
def rangeValue (off n : Int) : String :=
  toString off ++ "-" ++ toString n

/-- fmt.Sprintf of a Go bool, used for the X-IsEOF header. -/
def boolString (b : Bool) : String :=
  if b then "true" else "false"

/-- Header name constants of server.go. -/
def HeaderSharedSecret : String := "X-SharedSecret"
def HeaderIsEOF : String := "X-IsEOF"
def HeaderRange : String := "X-Range"
def HeaderContentLength : String := "Content-Length"

/-- MinumumBufferSize of server.go (sic). -/
def MinumumBufferSize : Int := 1

/-- requestOffsetAndLength of server.go: parse the X-Range header as
offset-length, rejecting parse failures, negative offsets and lengths
below MinumumBufferSize with a 400 response. -/
def requestOffsetAndLength (resp : ResponseWriter) (rh : RangeHdr) :
    ResponseWriter × Option (Int × Int) :=
  match rh with
  | .absent =>
      ((resp.writeHeader 400).writeBytes (strBytes "error parsing range header"), none)
  | .malformed =>
      ((resp.writeHeader 400).writeBytes (strBytes "error parsing range header"), none)
  | .range off len =>
      if off < 0 then
        ((resp.writeHeader 400).writeBytes (strBytes "invalid offset"), none)
      else if len < MinumumBufferSize then
        ((resp.writeHeader 400).writeBytes (strBytes "invalid buffer length"), none)
      else
        (resp, some (off, len))

/-- statFile of server.go: policy gate, registry lookup preferring the
reader, capability check, stat, optional filename substitution. -/
def statFile (fs : FileServer) (fileID : FileID) :
    Except Err FileInfo × List HandleEvent :=
  if !fs.allowStat then (.error .unsupportedOperation, [])
  else
    match (fs.readers fileID).orElse (fun _ => fs.writers fileID) with
    | none => (.error .unknownFile, [])
    | some h =>
        match h.statInfo with
        | none => (.error .unsupportedOperation, [])
        | some (.error e) => (.error e, [.statted fileID])
        | some (.ok fi) =>
            let info := if fs.discloseFilenames then fi
                        else { fi with FileName := String.mk fileID }
            (.ok info, [.statted fileID])

/-- Minimal model of the JSON string escaper of encoding/json for the
characters appearing in this development (quote and backslash). -/
def jsonEscape (s : String) : String :=
  String.mk (s.data.foldr
    (fun c acc => if c = '"' ∨ c = '\\' then '\\' :: c :: acc else c :: acc) [])

/-- json.Marshal of a FileInfo value, with the field order and json
tags of the struct in file.go. -/
def jsonFileInfo (i : FileInfo) : String :=
  "\x7b\"name\":\"" ++ jsonEscape i.FileName ++ "\",\"size\":" ++ toString i.FileSize ++
  ",\"modtime\":" ++ toString i.FileModTime ++ ",\"mode\":" ++ toString i.FileMode ++
  ",\"isdir\":" ++ boolString i.FileIsDir ++ "\x7d"

/-- handleFileOptions of server.go.  Faithful to the source order: on
success it first calls WriteHeader(200), only then sets the
Content-Length header, then writes the JSON body (json.Marshal of this
struct cannot fail, so the 500 branch is dead). -/
def handleFileOptions (fs : FileServer) (resp : ResponseWriter) (fileID : FileID) :
    ResponseWriter × List HandleEvent :=
  match statFile fs fileID with
  | (.error e, ev) => (writeErrorToResponseWriter resp e, ev)
  | (.ok info, ev) =>
      let resp := resp.writeHeader 200
      let resp := resp.set HeaderContentLength (toString info.FileSize)
      (resp.writeBytes (strBytes (jsonFileInfo info)), ev)

/-- handleReadFile of server.go: registry lookup, the plain-GET path
when no range header is present and the policy allows it (modelled as
serving the whole store with status 200), otherwise the ranged read:
ReadAt, error translation for non-EOF errors, the X-IsEOF and X-Range
headers, status 206 and the bytes read as body. -/
def handleReadFile (fs : FileServer) (heap : Heap) (resp : ResponseWriter)
    (req : Request) (fileID : FileID) :
    ResponseWriter × Heap × List HandleEvent :=
  match fs.readers fileID with
  | none => (resp.writeHeader 404, heap, [])
  | some h =>
      if fs.allowNormalGET ∧ req.rangeHdr = .absent then
        (resp.writeBytes (heap h.ref), heap, [.servedFull fileID])
      else
        match requestOffsetAndLength resp req.rangeHdr with
        | (resp, none) => (resp, heap, [])
        | (resp, some (off, len)) =>
            let rd := storeReadAt (heap h.ref) len.toNat off.toNat
            let ev := [HandleEvent.readAt fileID off len]
            match rd.2 with
            | some e =>
                if e = .eof then
                  let resp := resp.set HeaderIsEOF (boolString true)
                  let resp := resp.set HeaderRange (rangeValue off rd.1.length)
                  ((resp.writeHeader 206).writeBytes rd.1, heap, ev)
                else (writeErrorToResponseWriter resp e, heap, ev)
            | none =>
                let resp := resp.set HeaderIsEOF (boolString false)
                let resp := resp.set HeaderRange (rangeValue off rd.1.length)
                ((resp.writeHeader 206).writeBytes rd.1, heap, ev)

/-- The copy loop of handleWriteFile: while totalRead is below the
declared length, fill the write buffer from the remaining body (Read
until the buffer is full or the body is exhausted), WriteAt it at
offset plus written, and advance.  A round that makes no progress
models the loop of the source spinning forever (the body is exhausted
but totalRead is still short), so the result is none; the fuel only
bounds the recursion and is chosen large enough at the call site that
it never cuts a terminating run short. -/
def writeLoop (fuel : Nat) (heap : Heap) (ref : Nat) (bufSize : Nat)
    (off len : Int) (body : List Nat) (totalRead written : Int) :
    Option (Heap × Int × Int) :=
  match fuel with
  | 0 => none
  | fuel + 1 =>
      if totalRead < len then
        let chunk := body.take bufSize
        if chunk.length = 0 then none
        else
          writeLoop fuel
            (Function.update heap ref (storeWriteAt (heap ref) chunk (off + written).toNat))
            ref bufSize off len (body.drop bufSize)
            (totalRead + chunk.length) (written + chunk.length)
      else some (heap, totalRead, written)

/-- handleWriteFile of server.go: parse the range, look up the writer,
run the buffered copy loop, then the body-length and written-count
checks, and on success the X-Range response header and status 204.
none models a request on which the copy loop never terminates. -/
def handleWriteFile (fs : FileServer) (heap : Heap) (resp : ResponseWriter)
    (req : Request) (fileID : FileID) :
    Option (ResponseWriter × Heap × List HandleEvent) :=
  match requestOffsetAndLength resp req.rangeHdr with
  | (resp, none) => some (resp, heap, [])
  | (resp, some (off, len)) =>
      match fs.writers fileID with
      | none => some (resp.writeHeader 404, heap, [])
      | some h =>
          match writeLoop (req.body.length + 1) heap h.ref fs.writeBufferSize
              off len req.body 0 0 with
          | none => none
          | some (heap, totalRead, written) =>
              let ev := [HandleEvent.wroteAt fileID off written]
              if totalRead ≠ len then
                some ((resp.writeHeader 400).writeBytes (strBytes "invalid body length"),
                      heap, ev)
              else if totalRead ≠ written then
                some ((resp.writeHeader 500).writeBytes (strBytes "invalid bytes written"),
                      heap, ev)
              else
                let resp := resp.set HeaderRange (rangeValue off written)
                some (resp.writeHeader 204, heap, ev)

/-- closeReader of server.go: absent reader reports false; otherwise
the handle is closed when it is an io.Closer (a close error is logged
and ignored) and removed from the reader registry. -/
def closeReader (fs : FileServer) (fileID : FileID) :
    Bool × FileServer × List HandleEvent :=
  match fs.readers fileID with
  | none => (false, fs, [])
  | some h =>
      let ev := match h.closer with
                | some _ => [HandleEvent.closedHandle fileID]
                | none => []
      (true, { fs with readers := Function.update fs.readers fileID none }, ev)

/-- closeWriter of server.go. -/
def closeWriter (fs : FileServer) (fileID : FileID) :
    Bool × FileServer × List HandleEvent :=
  match fs.writers fileID with
  | none => (false, fs, [])
  | some h =>
      let ev := match h.closer with
                | some _ => [HandleEvent.closedHandle fileID]
                | none => []
      (true, { fs with writers := Function.update fs.writers fileID none }, ev)

/-- handleCloseFile of server.go: policy gate (403), close both kinds,
404 when neither was present, else 204. -/
def handleCloseFile (fs : FileServer) (resp : ResponseWriter) (fileID : FileID) :
    FileServer × ResponseWriter × List HandleEvent :=
  if !fs.allowClose then (fs, resp.writeHeader 403, [])
  else
    let r := closeReader fs fileID
    let w := closeWriter r.2.1 fileID
    let closed := (if r.1 then 1 else 0) + (if w.1 then 1 else 0)
    if closed = 0 then (w.2.1, resp.writeHeader 404, r.2.2 ++ w.2.2)
    else (w.2.1, resp.writeHeader 204, r.2.2 ++ w.2.2)

/-- The part of ServeHTTP of server.go after the shared-secret check:
the leading-slash check on the path, then the method switch.  none
models a request on which the write copy loop never terminates. -/
def routeRequest (fs : FileServer) (heap : Heap) (req : Request) :
    Option (FileServer × Heap × ResponseWriter × List HandleEvent) :=
  if req.path.take 1 ≠ ['/'] then
    some (fs, heap, freshRW.writeHeader 400, [])
  else
    let fileID : FileID := req.path.drop 1
    match req.method with
    | .options =>
        let r := handleFileOptions fs freshRW fileID
        some (fs, heap, r.1, r.2)
    | .get =>
        let r := handleReadFile fs heap freshRW req fileID
        some (fs, r.2.1, r.1, r.2.2)
    | .patch =>
        (handleWriteFile fs heap freshRW req fileID).map
          (fun r => (fs, r.2.1, r.1, r.2.2))
    | .delete =>
        let r := handleCloseFile fs freshRW fileID
        some (r.1, heap, r.2.1, r.2.2)
    | _ => some (fs, heap, freshRW.writeHeader 405, [])

/-- ServeHTTP of server.go: compare the presented shared secret with
the configured one; a mismatch is answered 401 with nothing else done,
a match proceeds to routing. -/
def ServeHTTP (fs : FileServer) (heap : Heap) (req : Request) :
    Option (FileServer × Heap × ResponseWriter × List HandleEvent) :=
  if presentedSecret req ≠ fs.sharedSecret then
    some (fs, heap, freshRW.writeHeader 401, [])
  else
    routeRequest fs heap req

/-- ServeFileReader of server.go: fails with ErrFileIDTaken when a
reader is already registered under the identifier, otherwise stores the
handle.  The background context waiter goroutine is concurrency and is
not modelled. -/
def ServeFileReader (fs : FileServer) (fileID : FileID) (h : Handle) :
    FileServer × Option Err :=
  if (fs.readers fileID).isSome then (fs, some .fileIDTaken)
  else ({ fs with readers := Function.update fs.readers fileID (some h) }, none)

/-- ServeFileWriter of server.go. -/
def ServeFileWriter (fs : FileServer) (fileID : FileID) (h : Handle) :
    FileServer × Option Err :=
  if (fs.writers fileID).isSome then (fs, some .fileIDTaken)
  else ({ fs with writers := Function.update fs.writers fileID (some h) }, none)

/-! ### Client-side read decoding (reader.go, X-IsEOF variant) -/

/-- responseCodeToError of http_codes.go: nil on the expected status,
otherwise the mapped error, otherwise a synthetic unknown error built
from the status code. -/
def responseCodeToError (status expected : Nat) : Option Err :=
  if status = expected then none
  else
    match HTTPCodeToErr status with
    | some e => some e
    | none => some (.other (toString status ++ ": an unknown error occurred"))

/-- Reader.read of reader.go applied to a received response: decode the
status against 206, read the body into the buffer (a short or empty
body yields io.EOF from the body reader, which is tolerated), then
return io.EOF exactly when the X-IsEOF response header is the string
true. -/
def clientRead (resp : ResponseWriter) (bufLen : Nat) : Nat × Option Err :=
  match responseCodeToError (resp.status.getD 0) 206 with
  | some e => (0, some e)
  | none =>
      let n := min bufLen resp.body.length
      let rerr : Option Err := if n < bufLen then some .eof else none
      if rerr.isSome ∧ rerr ≠ some .eof then (n, rerr)
      else
        let eof := (resp.sentHeaders HeaderIsEOF).getD "" = "true"
        if eof then (n, some .eof) else (n, none)

/-! ### Concrete instances used by individual theorems -/

/-- The closed set of domain error kinds named by the spec: the nine
errors appearing in both code tables of http_codes.go. -/
def closedErrSet : List Err :=
  [.eof, .unexpectedEOF, .shortBuffer, .shortWrite, .closedPipe, .noProgress,
   .unauthorized, .unknownFile, .unsupportedOperation]

/-- A well-behaved read source whose seeks always succeed: state is the
position, a seek lands on the requested offset, a read returns the
requested count. -/
def plainReadSrc : ReadSeekSrc Int :=
  { seek := fun _ off _ => (off, off, none),
    read := fun s plen => (s + plen, plen, none) }

/-- A well-behaved write source whose seeks always succeed. -/
def plainWriteSrc : WriteSeekSrc Int :=
  { seek := fun _ off _ => (off, off, none),
    write := fun s plen => (s + plen, plen, none) }

/-- A lawful read source modelled on a file handle: seeking to a
negative offset fails with error 1 and returns 0 leaving the position
alone, any other seek succeeds; reads always succeed. -/
def negFailSrc : ReadSeekSrc Int :=
  { seek := fun s off _ => if off < 0 then (s, 0, some 1) else (off, off, none),
    read := fun s plen => (s + plen, plen, none) }

/-- A read source on which seeking to offset 5 fails with error 7 and
returns count 0 (like a transient device error); all other calls
succeed. -/
def seekFailSrc : ReadSeekSrc Int :=
  { seek := fun s off _ => if off = 5 then (s, 0, some 7) else (off, off, none),
    read := fun s plen => (s + plen, plen, none) }

/-- A write source on which seeking to offset 5 fails with error 7. -/
def seekFailWSrc : WriteSeekSrc Int :=
  { seek := fun s off _ => if off = 5 then (s, 0, some 7) else (off, off, none),
    write := fun s plen => (s + plen, plen, none) }

/-- FileInfo sample for the stat theorems. -/
def fiSample : FileInfo :=
  { FileName := "data.bin", FileSize := 42, FileModTime := 1700000000,
    FileMode := 420, FileIsDir := false }

/-- The readable handle registered under f in the sample server: a
Statter reporting fiSample and a Closer whose Close errors. -/
def readerF : Handle :=
  { ref := 0, statInfo := some (.ok fiSample),
    closer := some (some (.other "close failed")) }

/-- The writable handle registered under f in the sample server,
backed by the same store object as readerF. -/
def writerF : Handle :=
  { ref := 0, statInfo := none, closer := some (some (.other "close failed")) }

/-- A server with one registered identifier f that has both a readable
and a writable handle backed by store object 0. -/
def fsPair : FileServer :=
  { sharedSecret := "s",
    readers := Function.update (fun _ => none) ['f'] (some readerF),
    writers := Function.update (fun _ => none) ['f'] (some writerF),
    allowStat := true, allowClose := true, allowNormalGET := true,
    discloseFilenames := true, writeBufferSize := 4 }

/-- An OPTIONS request for f with the correct shared secret. -/
def reqOptionsF : Request :=
  { method := .options, path := ['/', 'f'], secretHeader := "s",
    secretQuery := "", rangeHdr := .absent, body := [] }

/-! ## Theorems -/

/-- A successful association-list lookup means the pair is a member. -/
theorem lookup_mem {α β : Type} [BEq α] [LawfulBEq α]
    (l : List (α × β)) (a : α) (b : β) (h : l.lookup a = some b) : (a, b) ∈ l := by
  induction l with
  | nil => simp [List.lookup] at h
  | cons hd tl ih =>
      rw [List.lookup] at h
      by_cases he : (a == hd.1) = true
      · simp only [he] at h
        have : hd = (a, b) := by
          cases hd
          simp only [Option.some.injEq] at h
          simp only [beq_iff_eq] at he
          simp [he, h]
        simp [this]
      · simp only [Bool.not_eq_true] at he
        simp only [he] at h
        exact List.mem_cons_of_mem _ (ih h)

/-- Claim C9: the error and status tables of http_codes.go are mutually
inverse on the closed set of nine domain errors, decoding a status from
the client table and re-encoding it is the identity, and every error
outside the set is written as the synthetic status 490 with the error
text as the response body. -/
theorem claim_C9_error_mapping_bidirectional :
    (∀ e : Err, e ∈ closedErrSet → (errToHTTPCode e).bind HTTPCodeToErr = some e) ∧
    (∀ (c : Nat) (e : Err), HTTPCodeToErr c = some e → errToHTTPCode e = some c) ∧
    (∀ e : Err, e ∉ closedErrSet →
      writeErrorToResponseWriter freshRW e =
        (freshRW.writeHeader HTTPCodeUnknownError).writeBytes (strBytes e.text)) := by
  refine ⟨?_, ?_, ?_⟩
  · intro e he
    fin_cases he <;> rfl
  · intro c e h
    have hmem := lookup_mem _ _ _ h
    fin_cases hmem <;> rfl
  · intro e he
    have : errToHTTPCode e = none := by
      cases e <;> first
        | rfl
        | exact absurd (by decide) he
    simp [writeErrorToResponseWriter, this]

/-- Witness for claim C9 at concrete inputs: io.EOF round-trips, status
483 decodes and re-encodes to itself, and an unmapped error is written
as 490 with its text. -/
theorem claim_C9_witness :
    (errToHTTPCode Err.eof).bind HTTPCodeToErr = some Err.eof ∧
    errToHTTPCode Err.shortWrite = some 483 ∧
    writeErrorToResponseWriter freshRW (Err.other "boom") =
      (freshRW.writeHeader HTTPCodeUnknownError).writeBytes (strBytes "boom") :=
  ⟨claim_C9_error_mapping_bidirectional.1 Err.eof (by decide),
   claim_C9_error_mapping_bidirectional.2.1 483 Err.shortWrite (by decide),
   claim_C9_error_mapping_bidirectional.2.2 (Err.other "boom") (by decide)⟩

/-- Claim C5: any request whose presented shared secret differs from
the configured one is answered with the constant 401 response: the
registries and every store are untouched, no handle call is made (the
event list is empty), and the response does not depend on the registry
contents or handle state because it is a fixed constant. -/
theorem claim_C5_wrong_secret_rejected (fs : FileServer) (heap : Heap) (req : Request)
    (h : presentedSecret req ≠ fs.sharedSecret) :
    ServeHTTP fs heap req = some (fs, heap, freshRW.writeHeader 401, []) := by
  simp [ServeHTTP, h]

/-- Witness for claim C5: a GET for f with a wrong secret against the
sample server is rejected. -/
theorem claim_C5_witness :
    presentedSecret { method := Method.get, path := ['/', 'f'], secretHeader := "wrong",
                      secretQuery := "", rangeHdr := .absent, body := [] } ≠
      fsPair.sharedSecret ∧
    ServeHTTP fsPair (fun _ => [0, 1, 2])
      { method := Method.get, path := ['/', 'f'], secretHeader := "wrong",
        secretQuery := "", rangeHdr := .absent, body := [] } =
      some (fsPair, (fun _ => [0, 1, 2]), freshRW.writeHeader 401, []) :=
  ⟨by decide,
   claim_C5_wrong_secret_rejected fsPair (fun _ => [0, 1, 2]) _ (by decide)⟩

/-- Claim C10: with the empty string configured as shared secret, a
request carrying neither the header nor the query parameter presents
the empty string, which equals the configured secret, so the request
passes the authentication gate and is routed normally. -/
theorem claim_C10_empty_secret_disables_auth (fs : FileServer) (heap : Heap) (req : Request)
    (hfs : fs.sharedSecret = "") (hh : req.secretHeader = "") (hq : req.secretQuery = "") :
    presentedSecret req = fs.sharedSecret ∧
    ServeHTTP fs heap req = routeRequest fs heap req := by
  have hp : presentedSecret req = fs.sharedSecret := by
    simp [presentedSecret, hh, hq, hfs]
  exact ⟨hp, by simp [ServeHTTP, hp]⟩

/-- Witness for claim C10: a credential-less DELETE against a server
with the empty secret reaches the routing stage. -/
theorem claim_C10_witness :
    presentedSecret { method := Method.delete, path := ['/', 'f'], secretHeader := "",
                      secretQuery := "", rangeHdr := .absent, body := [] } =
      ({ fsPair with sharedSecret := "" } : FileServer).sharedSecret ∧
    ServeHTTP { fsPair with sharedSecret := "" } (fun _ => [])
      { method := Method.delete, path := ['/', 'f'], secretHeader := "",
        secretQuery := "", rangeHdr := .absent, body := [] } =
      routeRequest { fsPair with sharedSecret := "" } (fun _ => [])
        { method := Method.delete, path := ['/', 'f'], secretHeader := "",
          secretQuery := "", rangeHdr := .absent, body := [] } :=
  claim_C10_empty_secret_disables_auth _ _ _ rfl rfl rfl

/-- Claim C6: ServeFileReader fails with ErrFileIDTaken and leaves the
server unchanged exactly when a reader is already registered under the
identifier and registers the handle otherwise; the same holds for
ServeFileWriter over the writer registry; and because the two
registries are checked independently, a reader and a writer register
simultaneously under one identifier. -/
theorem claim_C6_registration (fs : FileServer) (id : FileID) (h h2 : Handle) :
    ((fs.readers id).isSome → ServeFileReader fs id h = (fs, some .fileIDTaken)) ∧
    (fs.readers id = none → ServeFileReader fs id h =
      ({ fs with readers := Function.update fs.readers id (some h) }, none)) ∧
    ((fs.writers id).isSome → ServeFileWriter fs id h = (fs, some .fileIDTaken)) ∧
    (fs.writers id = none → ServeFileWriter fs id h =
      ({ fs with writers := Function.update fs.writers id (some h) }, none)) ∧
    (fs.readers id = none → fs.writers id = none →
      (ServeFileReader fs id h).2 = none ∧
      (ServeFileWriter (ServeFileReader fs id h).1 id h2).2 = none ∧
      ((ServeFileWriter (ServeFileReader fs id h).1 id h2).1.readers id = some h ∧
       (ServeFileWriter (ServeFileReader fs id h).1 id h2).1.writers id = some h2)) := by
  refine ⟨?_, ?_, ?_, ?_, ?_⟩
  · intro hr; simp [ServeFileReader, hr]
  · intro hr; simp [ServeFileReader, hr]
  · intro hw; simp [ServeFileWriter, hw]
  · intro hw; simp [ServeFileWriter, hw]
  · intro hr hw
    simp [ServeFileReader, ServeFileWriter, hr, hw]

/-- Witness for claim C6 on an empty registry: both kinds register
under one identifier. -/
theorem claim_C6_witness :
    ((ServeFileWriter
        (ServeFileReader { fsPair with readers := fun _ => none, writers := fun _ => none }
          ['g'] { ref := 1, statInfo := none, closer := none }).1
        ['g'] { ref := 2, statInfo := none, closer := none }).1.readers ['g'] =
      some { ref := 1, statInfo := none, closer := none }) ∧
    ((ServeFileWriter
        (ServeFileReader { fsPair with readers := fun _ => none, writers := fun _ => none }
          ['g'] { ref := 1, statInfo := none, closer := none }).1
        ['g'] { ref := 2, statInfo := none, closer := none }).1.writers ['g'] =
      some { ref := 2, statInfo := none, closer := none }) :=
  ((claim_C6_registration
      { fsPair with readers := fun _ => none, writers := fun _ => none } ['g']
      { ref := 1, statInfo := none, closer := none }
      { ref := 2, statInfo := none, closer := none }).2.2.2.2 rfl rfl).2.2

/-- With a matching secret, ServeHTTP proceeds to routing. -/
theorem serveHTTP_route (fs : FileServer) (heap : Heap) (req : Request)
    (hsec : presentedSecret req = fs.sharedSecret) :
    ServeHTTP fs heap req = routeRequest fs heap req := by
  simp [ServeHTTP, hsec]

/-- Routing of a DELETE request for the identifier in the path. -/
theorem routeRequest_delete (fs : FileServer) (heap : Heap) (req : Request) (id : FileID)
    (hm : req.method = .delete) (hp : req.path = '/' :: id) :
    routeRequest fs heap req =
      some ((handleCloseFile fs freshRW id).1, heap,
            (handleCloseFile fs freshRW id).2.1, (handleCloseFile fs freshRW id).2.2) := by
  simp [routeRequest, hp, hm]

/-- handleCloseFile when nothing is registered under the identifier:
the response is 404 and the server is unchanged. -/
theorem handleCloseFile_none (fs : FileServer) (id : FileID) (hclose : fs.allowClose = true)
    (hr : fs.readers id = none) (hw : fs.writers id = none) :
    handleCloseFile fs freshRW id = (fs, freshRW.writeHeader 404, []) := by
  simp [handleCloseFile, closeReader, closeWriter, hclose, hr, hw]

/-- handleCloseFile when at least one kind is registered: the response
is 204 and both kinds end up removed; the policy fields are untouched. -/
theorem handleCloseFile_spec (fs : FileServer) (id : FileID) (hclose : fs.allowClose = true)
    (hsome : (fs.readers id).isSome ∨ (fs.writers id).isSome) :
    (handleCloseFile fs freshRW id).2.1 = freshRW.writeHeader 204 ∧
    (handleCloseFile fs freshRW id).1.readers id = none ∧
    (handleCloseFile fs freshRW id).1.writers id = none ∧
    (handleCloseFile fs freshRW id).1.sharedSecret = fs.sharedSecret ∧
    (handleCloseFile fs freshRW id).1.allowClose = fs.allowClose := by
  cases hrc : fs.readers id <;> cases hwc : fs.writers id <;>
    simp_all [handleCloseFile, closeReader, closeWriter, hclose, hrc, hwc]

/-- Claim C7: a DELETE with close allowed answers 404 exactly when
neither a reader nor a writer is registered under the identifier (and
then changes nothing); otherwise it removes every registered kind and
answers 204 regardless of what the underlying Close calls return (the
handles here may carry erroring closers), leaving the identifier
absent, so running the same close again answers 404. -/
theorem claim_C7_close_idempotent (fs : FileServer) (heap : Heap) (id : FileID) (req : Request)
    (hclose : fs.allowClose = true)
    (hsec : presentedSecret req = fs.sharedSecret)
    (hm : req.method = .delete) (hp : req.path = '/' :: id) :
    (fs.readers id = none → fs.writers id = none →
      ServeHTTP fs heap req = some (fs, heap, freshRW.writeHeader 404, [])) ∧
    ((fs.readers id).isSome ∨ (fs.writers id).isSome →
      ∃ fs₂ resp ev, ServeHTTP fs heap req = some (fs₂, heap, resp, ev) ∧
        resp = freshRW.writeHeader 204 ∧
        fs₂.readers id = none ∧ fs₂.writers id = none ∧
        ∀ heap₂, ServeHTTP fs₂ heap₂ req = some (fs₂, heap₂, freshRW.writeHeader 404, [])) := by
  constructor
  · intro hr hw
    rw [serveHTTP_route fs heap req hsec, routeRequest_delete fs heap req id hm hp,
        handleCloseFile_none fs id hclose hr hw]
  · intro hsome
    obtain ⟨h204, hr2, hw2, hsec2, hc2⟩ := handleCloseFile_spec fs id hclose hsome
    refine ⟨(handleCloseFile fs freshRW id).1, (handleCloseFile fs freshRW id).2.1,
            (handleCloseFile fs freshRW id).2.2, ?_, h204, hr2, hw2, ?_⟩
    · rw [serveHTTP_route fs heap req hsec, routeRequest_delete fs heap req id hm hp]
    · intro heap₂
      rw [serveHTTP_route _ heap₂ req (by rw [hsec2]; exact hsec),
          routeRequest_delete _ heap₂ req id hm hp,
          handleCloseFile_none _ id (by rw [hc2]; exact hclose) hr2 hw2]

/-- Witness for claim C7: closing f on the sample server (both kinds
registered, both closers erroring) gives 204 and a repeat gives 404. -/
theorem claim_C7_witness :
    ∃ fs₂ resp ev,
      ServeHTTP fsPair (fun _ => [])
        { method := Method.delete, path := ['/', 'f'], secretHeader := "s",
          secretQuery := "", rangeHdr := .absent, body := [] } =
        some (fs₂, (fun _ => []), resp, ev) ∧
      resp = freshRW.writeHeader 204 ∧
      fs₂.readers ['f'] = none ∧ fs₂.writers ['f'] = none ∧
      ∀ heap₂, ServeHTTP fs₂ heap₂
        { method := Method.delete, path := ['/', 'f'], secretHeader := "s",
          secretQuery := "", rangeHdr := .absent, body := [] } =
        some (fs₂, heap₂, freshRW.writeHeader 404, []) :=
  (claim_C7_close_idempotent fsPair (fun _ => []) ['f']
    { method := Method.delete, path := ['/', 'f'], secretHeader := "s",
      secretQuery := "", rangeHdr := .absent, body := [] }
    rfl (by decide) rfl rfl).2 (by left; decide)

/-- Claim C4, evaluated: a stat request with the correct secret against
a registered statable handle is answered 200 with the JSON FileInfo as
body, but the Content-Length header does NOT reach the sent response:
handleFileOptions calls WriteHeader(200) first and only then sets the
header, and per the net/http contract a header set after WriteHeader is
not transmitted.  The live header map does receive the value, showing
the set itself happens, merely too late. -/
theorem claim_C4_contentlength_not_sent :
    ∃ resp, ServeHTTP fsPair (fun _ => []) reqOptionsF =
        some (fsPair, (fun _ => []), resp, [.statted ['f']]) ∧
      resp.status = some 200 ∧
      resp.body = strBytes (jsonFileInfo fiSample) ∧
      resp.headers HeaderContentLength = some (toString fiSample.FileSize) ∧
      resp.sentHeaders HeaderContentLength = none := by
  refine ⟨_, rfl, rfl, rfl, ?_, rfl⟩
  simp [handleFileOptions, statFile, fsPair, reqOptionsF, fiSample, readerF,
    ResponseWriter.set, ResponseWriter.writeHeader, ResponseWriter.writeBytes,
    freshRW, writeErrorToResponseWriter, Function.update]

/-- Claim C3 as amended: when the lastChange pointer differs from the
calling cursor and the underlying seek to the stored offset fails, the
cursor Read (or Write) returns that seek error with count 0, performs
no read or write on the source, and leaves the lastChange pointer
unchanged; however the cursor stored logical offset is OVERWRITTEN
with the count returned by the failing seek (the source assigns the
offset before checking the seek error), rather than left unchanged. -/
theorem claim_C3_failed_seek_propagates :
    (∀ (σ : Type) (B : ReadSeekSrc σ) (s : ConcurrentReadSeeker σ) (c plen e : Nat),
      s.lastChange ≠ some c →
      (B.seek s.src (s.offsets c) .seekStart).2.2 = some e →
      readSeekerRead B s c plen =
        ({ s with src := (B.seek s.src (s.offsets c) .seekStart).1,
                  offsets := Function.update s.offsets c
                    (B.seek s.src (s.offsets c) .seekStart).2.1 },
         0, some e, true)) ∧
    (∀ (σ : Type) (B : WriteSeekSrc σ) (s : ConcurrentWriteSeeker σ) (c plen e : Nat),
      s.lastChange ≠ some c →
      (B.seek s.src (s.offsets c) .seekStart).2.2 = some e →
      writeSeekerWrite B s c plen =
        ({ s with src := (B.seek s.src (s.offsets c) .seekStart).1,
                  offsets := Function.update s.offsets c
                    (B.seek s.src (s.offsets c) .seekStart).2.1 },
         0, some e, true)) := by
  constructor
  · intro σ B s c plen e hne hseek
    simp [readSeekerRead, hne, hseek]
  · intro σ B s c plen e hne hseek
    simp [writeSeekerWrite, hne, hseek]

/-- Witness for claim C3: a cursor whose stored offset is 5 hits the
failing seek of seekFailSrc; the error 7 propagates, lastChange stays
nil, and the stored offset becomes the returned 0. -/
theorem claim_C3_witness :
    readSeekerRead seekFailSrc
      { src := 9, lastChange := none, offsets := Function.update (fun _ => 0) 0 5 } 0 1 =
      ({ src := 9, lastChange := none,
         offsets := Function.update (Function.update (fun _ => 0) 0 5) 0 0 }, 0, some 7, true) ∧
    writeSeekerWrite seekFailWSrc
      { src := 9, lastChange := none, offsets := Function.update (fun _ => 0) 0 5 } 0 1 =
      ({ src := 9, lastChange := none,
         offsets := Function.update (Function.update (fun _ => 0) 0 5) 0 0 }, 0, some 7, true) :=
  ⟨(claim_C3_failed_seek_propagates).1 Int seekFailSrc
      { src := 9, lastChange := none, offsets := Function.update (fun _ => 0) 0 5 }
      0 1 7 (by decide) (by decide),
   (claim_C3_failed_seek_propagates).2 Int seekFailWSrc
      { src := 9, lastChange := none, offsets := Function.update (fun _ => 0) 0 5 }
      0 1 7 (by decide) (by decide)⟩

/-- Counterexample to claim C3 as stated: at this concrete input the
premises hold (lastChange differs from the cursor, the seek to the
stored offset 5 fails with error 7) and the error is propagated, yet
the cursor stored logical offset is NOT left unchanged: it changes
from 5 to 0. -/
theorem claim_C3_counterexample :
    ({ src := 9, lastChange := none, offsets := Function.update (fun _ => 0) 0 5 } :
        ConcurrentReadSeeker Int).lastChange ≠ some 0 ∧
    (seekFailSrc.seek 9 5 .seekStart).2.2 = some 7 ∧
    (readSeekerRead seekFailSrc
      { src := 9, lastChange := none, offsets := Function.update (fun _ => 0) 0 5 }
      0 1).2.2.1 = some 7 ∧
    (readSeekerRead seekFailSrc
      { src := 9, lastChange := none, offsets := Function.update (fun _ => 0) 0 5 }
      0 1).1.offsets 0 ≠
      ({ src := 9, lastChange := none, offsets := Function.update (fun _ => 0) 0 5 } :
        ConcurrentReadSeeker Int).offsets 0 := by
  refine ⟨by decide, by decide, by decide, by decide⟩

/-- The trace invariant for read multiplexers: from any state in which
the physical position agrees with the lastChange cursor stored offset,
every run checks out, provided the source is lawful and its seeks
never fail. -/
theorem readSeekerTraceOK_of_inv {σ : Type} (B : ReadSeekSrc σ) (pos : σ → Int)
    (hlaw : LawfulReadSrc B pos)
    (hseek : ∀ s off w, (B.seek s off w).2.2 = none) :
    ∀ (ops : List RSOp) (s : ConcurrentReadSeeker σ),
      (∀ c, s.lastChange = some c → pos s.src = s.offsets c) →
      readSeekerTraceOK B pos s ops = true := by
  intro ops
  induction ops with
  | nil => intro s _; rfl
  | cons op rest ih =>
      intro s hinv
      cases op with
      | read c plen =>
          by_cases hc : s.lastChange = some c
          · have hstep : readSeekerRead B s c plen =
                ({ s with src := (B.read s.src plen).1,
                          offsets := Function.update s.offsets c
                            (s.offsets c + (B.read s.src plen).2.1) },
                 (B.read s.src plen).2.1, (B.read s.src plen).2.2, false) := by
              simp [readSeekerRead, hc]
            have hpos : pos (B.read s.src plen).1 =
                s.offsets c + (B.read s.src plen).2.1 := by
              rw [hlaw.2, hinv c hc]
            simp only [readSeekerTraceOK, hstep]
            rw [Bool.and_eq_true, Bool.and_eq_true]
            refine ⟨⟨?_, ?_⟩, ?_⟩
            · simp
            · simp [hpos]
            · refine ih _ ?_
              intro c' h'
              rw [hc] at h'
              injection h' with h'
              subst h'
              simp [hpos]
          · have hsk := hseek s.src (s.offsets c) .seekStart
            have hstep : readSeekerRead B s c plen =
                ({ src := (B.read (B.seek s.src (s.offsets c) .seekStart).1 plen).1,
                   lastChange := some c,
                   offsets := Function.update s.offsets c
                     ((B.seek s.src (s.offsets c) .seekStart).2.1 +
                      (B.read (B.seek s.src (s.offsets c) .seekStart).1 plen).2.1) },
                 (B.read (B.seek s.src (s.offsets c) .seekStart).1 plen).2.1,
                 (B.read (B.seek s.src (s.offsets c) .seekStart).1 plen).2.2, true) := by
              simp [readSeekerRead, hc, hsk]
            have hpos : pos (B.read (B.seek s.src (s.offsets c) .seekStart).1 plen).1 =
                (B.seek s.src (s.offsets c) .seekStart).2.1 +
                (B.read (B.seek s.src (s.offsets c) .seekStart).1 plen).2.1 := by
              rw [hlaw.2, hlaw.1 _ _ _ hsk]
            simp only [readSeekerTraceOK, hstep]
            rw [Bool.and_eq_true, Bool.and_eq_true]
            refine ⟨⟨?_, ?_⟩, ?_⟩
            · simp [hc]
            · simp [hpos]
            · refine ih _ ?_
              intro c' h'
              injection h' with h'
              subst h'
              simp [hpos]
      | seek c off w =>
          have hsk := hseek s.src off w
          have hpos : pos (B.seek s.src off w).1 = (B.seek s.src off w).2.1 :=
            hlaw.1 _ _ _ hsk
          simp only [readSeekerTraceOK, readSeekerSeek]
          rw [Bool.and_eq_true]
          refine ⟨?_, ?_⟩
          · simp [hpos]
          · refine ih _ ?_
            intro c' h'
            injection h' with h'
            subst h'
            simp [hpos]

/-- The trace invariant for write multiplexers. -/
theorem writeSeekerTraceOK_of_inv {σ : Type} (B : WriteSeekSrc σ) (pos : σ → Int)
    (hlaw : LawfulWriteSrc B pos)
    (hseek : ∀ s off w, (B.seek s off w).2.2 = none) :
    ∀ (ops : List WSOp) (s : ConcurrentWriteSeeker σ),
      (∀ c, s.lastChange = some c → pos s.src = s.offsets c) →
      writeSeekerTraceOK B pos s ops = true := by
  intro ops
  induction ops with
  | nil => intro s _; rfl
  | cons op rest ih =>
      intro s hinv
      cases op with
      | write c plen =>
          by_cases hc : s.lastChange = some c
          · have hstep : writeSeekerWrite B s c plen =
                ({ s with src := (B.write s.src plen).1,
                          offsets := Function.update s.offsets c
                            (s.offsets c + (B.write s.src plen).2.1) },
                 (B.write s.src plen).2.1, (B.write s.src plen).2.2, false) := by
              simp [writeSeekerWrite, hc]
            have hpos : pos (B.write s.src plen).1 =
                s.offsets c + (B.write s.src plen).2.1 := by
              rw [hlaw.2, hinv c hc]
            simp only [writeSeekerTraceOK, hstep]
            rw [Bool.and_eq_true, Bool.and_eq_true]
            refine ⟨⟨?_, ?_⟩, ?_⟩
            · simp
            · simp [hpos]
            · refine ih _ ?_
              intro c' h'
              rw [hc] at h'
              injection h' with h'
              subst h'
              simp [hpos]
          · have hsk := hseek s.src (s.offsets c) .seekStart
            have hstep : writeSeekerWrite B s c plen =
                ({ src := (B.write (B.seek s.src (s.offsets c) .seekStart).1 plen).1,
                   lastChange := some c,
                   offsets := Function.update s.offsets c
                     ((B.seek s.src (s.offsets c) .seekStart).2.1 +
                      (B.write (B.seek s.src (s.offsets c) .seekStart).1 plen).2.1) },
                 (B.write (B.seek s.src (s.offsets c) .seekStart).1 plen).2.1,
                 (B.write (B.seek s.src (s.offsets c) .seekStart).1 plen).2.2, true) := by
              simp [writeSeekerWrite, hc, hsk]
            have hpos : pos (B.write (B.seek s.src (s.offsets c) .seekStart).1 plen).1 =
                (B.seek s.src (s.offsets c) .seekStart).2.1 +
                (B.write (B.seek s.src (s.offsets c) .seekStart).1 plen).2.1 := by
              rw [hlaw.2, hlaw.1 _ _ _ hsk]
            simp only [writeSeekerTraceOK, hstep]
            rw [Bool.and_eq_true, Bool.and_eq_true]
            refine ⟨⟨?_, ?_⟩, ?_⟩
            · simp [hc]
            · simp [hpos]
            · refine ih _ ?_
              intro c' h'
              injection h' with h'
              subst h'
              simp [hpos]
      | seek c off w =>
          have hsk := hseek s.src off w
          have hpos : pos (B.seek s.src off w).1 = (B.seek s.src off w).2.1 :=
            hlaw.1 _ _ _ hsk
          simp only [writeSeekerTraceOK, writeSeekerSeek]
          rw [Bool.and_eq_true]
          refine ⟨?_, ?_⟩
          · simp [hpos]
          · refine ih _ ?_
            intro c' h'
            injection h' with h'
            subst h'
            simp [hpos]

/-- The seek-invocation property holds for every read source
unconditionally: at every Read step of every run, a physical seek is
invoked only when lastChange differs from the calling cursor. -/
theorem readSeekerSeekFlagOK_all {σ : Type} (B : ReadSeekSrc σ) :
    ∀ (ops : List RSOp) (s : ConcurrentReadSeeker σ),
      readSeekerSeekFlagOK B s ops = true := by
  intro ops
  induction ops with
  | nil => intro s; rfl
  | cons op rest ih =>
      intro s
      cases op with
      | read c plen =>
          rw [readSeekerSeekFlagOK, Bool.and_eq_true]
          refine ⟨?_, ih _⟩
          by_cases hc : s.lastChange = some c
          · simp [readSeekerRead, hc]
          · simp [hc]
      | seek c off w =>
          rw [readSeekerSeekFlagOK]
          exact ih _

/-- The seek-invocation property holds for every write source
unconditionally. -/
theorem writeSeekerSeekFlagOK_all {σ : Type} (B : WriteSeekSrc σ) :
    ∀ (ops : List WSOp) (s : ConcurrentWriteSeeker σ),
      writeSeekerSeekFlagOK B s ops = true := by
  intro ops
  induction ops with
  | nil => intro s; rfl
  | cons op rest ih =>
      intro s
      cases op with
      | write c plen =>
          rw [writeSeekerSeekFlagOK, Bool.and_eq_true]
          refine ⟨?_, ih _⟩
          by_cases hc : s.lastChange = some c
          · simp [writeSeekerWrite, hc]
          · simp [hc]
      | seek c off w =>
          rw [writeSeekerSeekFlagOK]
          exact ih _

/-- Claim C1 as amended: over every operation sequence through any
cursors of one multiplexer, the underlying seek is invoked inside a
cursor Read or Write only when lastChange differs from the calling
cursor — this holds for EVERY source, with no hypotheses (first two
conjuncts); and after every successful operation the physical position
of the source equals the calling cursor stored logical offset,
PROVIDED the source is lawful and its seeks never fail (last two
conjuncts; with a failing seek that invariant is violated, see the
counterexample). -/
theorem claim_C1_offset_cache_invariant :
    (∀ (σ : Type) (B : ReadSeekSrc σ) (s0 : σ) (ops : List RSOp),
      readSeekerSeekFlagOK B (initRS s0) ops = true) ∧
    (∀ (σ : Type) (B : WriteSeekSrc σ) (s0 : σ) (ops : List WSOp),
      writeSeekerSeekFlagOK B (initWS s0) ops = true) ∧
    (∀ (σ : Type) (B : ReadSeekSrc σ) (pos : σ → Int) (s0 : σ) (ops : List RSOp),
      LawfulReadSrc B pos → (∀ s off w, (B.seek s off w).2.2 = none) →
      readSeekerTraceOK B pos (initRS s0) ops = true) ∧
    (∀ (σ : Type) (B : WriteSeekSrc σ) (pos : σ → Int) (s0 : σ) (ops : List WSOp),
      LawfulWriteSrc B pos → (∀ s off w, (B.seek s off w).2.2 = none) →
      writeSeekerTraceOK B pos (initWS s0) ops = true) := by
  refine ⟨?_, ?_, ?_, ?_⟩
  · intro σ B s0 ops
    exact readSeekerSeekFlagOK_all B ops _
  · intro σ B s0 ops
    exact writeSeekerSeekFlagOK_all B ops _
  · intro σ B pos s0 ops hlaw hseek
    refine readSeekerTraceOK_of_inv B pos hlaw hseek ops _ ?_
    intro c h
    simp [initRS] at h
  · intro σ B pos s0 ops hlaw hseek
    refine writeSeekerTraceOK_of_inv B pos hlaw hseek ops _ ?_
    intro c h
    simp [initWS] at h

/-- Witness for claim C1: the unconditional seek-invocation conjuncts
applied to sources whose seeks CAN fail, and the position invariant on
the well-behaved sources with interleaved cursors. -/
theorem claim_C1_witness :
    readSeekerSeekFlagOK negFailSrc (initRS 0)
      [RSOp.read 0 3, RSOp.seek 0 (-1) .seekStart, RSOp.read 0 1] = true ∧
    writeSeekerSeekFlagOK seekFailWSrc (initWS 0)
      [WSOp.seek 0 5 .seekStart, WSOp.write 1 2, WSOp.write 0 1] = true ∧
    readSeekerTraceOK plainReadSrc (fun s => s) (initRS 0)
      [RSOp.read 0 3, RSOp.seek 1 10 .seekStart, RSOp.read 0 2, RSOp.read 1 4] = true ∧
    writeSeekerTraceOK plainWriteSrc (fun s => s) (initWS 0)
      [WSOp.write 0 3, WSOp.seek 1 10 .seekStart, WSOp.write 1 4, WSOp.write 0 2] = true :=
  ⟨claim_C1_offset_cache_invariant.1 Int negFailSrc 0 _,
   claim_C1_offset_cache_invariant.2.1 Int seekFailWSrc 0 _,
   claim_C1_offset_cache_invariant.2.2.1 Int plainReadSrc (fun s => s) 0 _
      ⟨fun _ _ _ _ => rfl, fun _ _ => rfl⟩ (fun _ _ _ => rfl),
   claim_C1_offset_cache_invariant.2.2.2 Int plainWriteSrc (fun s => s) 0 _
      ⟨fun _ _ _ _ => rfl, fun _ _ => rfl⟩ (fun _ _ _ => rfl)⟩

/-- Counterexample to claim C1 as stated: negFailSrc is a lawful
file-like source, yet after a failing cursor Seek the next successful
Read leaves the physical position different from the cursor stored
offset, so the trace check fails. -/
theorem claim_C1_counterexample :
    LawfulReadSrc negFailSrc (fun s => s) ∧
    readSeekerTraceOK negFailSrc (fun s => s) (initRS 0)
      [RSOp.read 0 3, RSOp.seek 0 (-1) .seekStart, RSOp.read 0 1] = false := by
  constructor
  · constructor
    · intro s off w h
      by_cases ho : off < 0
      · simp [negFailSrc, ho] at h
      · simp [negFailSrc, ho]
    · intro s plen
      rfl
  · decide

/-- Routing of a GET request for the identifier in the path. -/
theorem routeRequest_get (fs : FileServer) (heap : Heap) (req : Request) (id : FileID)
    (hm : req.method = .get) (hp : req.path = '/' :: id) :
    routeRequest fs heap req =
      some (fs, (handleReadFile fs heap freshRW req id).2.1,
            (handleReadFile fs heap freshRW req id).1,
            (handleReadFile fs heap freshRW req id).2.2) := by
  simp [routeRequest, hp, hm]

/-- A ranged read whose offset is at or beyond end of file: the handler
answers 206 with empty body, X-IsEOF true and X-Range echoing the
offset with count 0. -/
theorem handleReadFile_eof (fs : FileServer) (heap : Heap) (req : Request) (id : FileID)
    (h : Handle) (o len : Int)
    (hr : fs.readers id = some h)
    (hrange : req.rangeHdr = .range o len)
    (hoff : ((heap h.ref).length : Int) ≤ o) (hlen : 1 ≤ len) :
    handleReadFile fs heap freshRW req id =
      ((((freshRW.set HeaderIsEOF (boolString true)).set HeaderRange
          (rangeValue o 0)).writeHeader 206).writeBytes [], heap,
       [HandleEvent.readAt id o len]) := by
  have ho0 : ¬ o < 0 := by
    have : (0 : Int) ≤ ((heap h.ref).length : Int) := by positivity
    omega
  have hlen1 : ¬ len < MinumumBufferSize := by
    simp only [MinumumBufferSize]; omega
  have hdrop : (heap h.ref).drop o.toNat = [] := by
    refine List.drop_eq_nil_of_le ?_
    omega
  have hread : storeReadAt (heap h.ref) len.toNat o.toNat = ([], some .eof) := by
    simp only [storeReadAt, hdrop, List.take_nil, List.length_nil]
    rw [if_pos (by omega)]
  simp only [handleReadFile, hr, hrange, requestOffsetAndLength,
    if_neg ho0, if_neg hlen1, hread]
  simp

/-- Decoding a 206 response with empty body and X-IsEOF true on the
client yields count 0 and io.EOF. -/
theorem clientRead_eof (resp : ResponseWriter) (bufLen : Nat)
    (hst : resp.status = some 206) (hb : resp.body = [])
    (hh : resp.sentHeaders HeaderIsEOF = some "true") (hpos : 0 < bufLen) :
    clientRead resp bufLen = (0, some .eof) := by
  simp [clientRead, responseCodeToError, hst, hb, hh, Nat.pos_iff_ne_zero.mp hpos]

/-- Claim C8: a ranged read at or past end of file is answered 206 with
an empty body, X-IsEOF true and X-Range echoing offset-0, and decoding
that response on the client yields count 0 with the end-of-file error
value rather than any other failure. -/
theorem claim_C8_read_past_eof (fs : FileServer) (heap : Heap) (id : FileID)
    (h : Handle) (req : Request) (o len : Int)
    (hr : fs.readers id = some h)
    (hsec : presentedSecret req = fs.sharedSecret)
    (hm : req.method = .get) (hp : req.path = '/' :: id)
    (hrange : req.rangeHdr = .range o len)
    (hoff : ((heap h.ref).length : Int) ≤ o) (hlen : 1 ≤ len) :
    ∃ resp, ServeHTTP fs heap req =
        some (fs, heap, resp, [HandleEvent.readAt id o len]) ∧
      resp.status = some 206 ∧
      resp.body = [] ∧
      resp.sentHeaders HeaderIsEOF = some "true" ∧
      resp.sentHeaders HeaderRange = some (rangeValue o 0) ∧
      clientRead resp len.toNat = (0, some .eof) := by
  rw [serveHTTP_route fs heap req hsec, routeRequest_get fs heap req id hm hp,
      handleReadFile_eof fs heap req id h o len hr hrange hoff hlen]
  have hne : HeaderIsEOF ≠ HeaderRange := by decide
  have hEOF : ((((freshRW.set HeaderIsEOF (boolString true)).set HeaderRange
      (rangeValue o 0)).writeHeader 206).writeBytes []).sentHeaders HeaderIsEOF =
      some "true" := by
    show Function.update (Function.update (fun _ => none) HeaderIsEOF
        (some (boolString true))) HeaderRange (some (rangeValue o 0)) HeaderIsEOF =
      some "true"
    rw [Function.update_noteq hne, Function.update_same]
    rfl
  have hRange : ((((freshRW.set HeaderIsEOF (boolString true)).set HeaderRange
      (rangeValue o 0)).writeHeader 206).writeBytes []).sentHeaders HeaderRange =
      some (rangeValue o 0) := by
    show Function.update (Function.update (fun _ => none) HeaderIsEOF
        (some (boolString true))) HeaderRange (some (rangeValue o 0)) HeaderRange =
      some (rangeValue o 0)
    rw [Function.update_same]
  have hpos : 0 < len.toNat := by omega
  exact ⟨_, rfl, rfl, rfl, hEOF, hRange,
    clientRead_eof _ _ rfl rfl hEOF hpos⟩

/-- Witness for claim C8: a 2-byte read at offset 5 of the 3-byte store
behind f. -/
theorem claim_C8_witness :
    ∃ resp, ServeHTTP fsPair (fun _ => [1, 2, 3])
        { method := Method.get, path := ['/', 'f'], secretHeader := "s",
          secretQuery := "", rangeHdr := .range 5 2, body := [] } =
        some (fsPair, (fun _ => [1, 2, 3]), resp, [HandleEvent.readAt ['f'] 5 2]) ∧
      resp.status = some 206 ∧
      resp.body = [] ∧
      resp.sentHeaders HeaderIsEOF = some "true" ∧
      resp.sentHeaders HeaderRange = some (rangeValue 5 0) ∧
      clientRead resp (2 : Int).toNat = (0, some .eof) :=
  claim_C8_read_past_eof fsPair (fun _ => [1, 2, 3]) ['f'] readerF
    { method := Method.get, path := ['/', 'f'], secretHeader := "s",
      secretQuery := "", rangeHdr := .range 5 2, body := [] }
    5 2 rfl (by decide) rfl rfl rfl (by decide) (by decide)

/-- Writing nothing changes nothing. -/
theorem storeWriteAt_nil (data : List Nat) (off : Nat) :
    storeWriteAt data [] off = data := rfl

/-- Normal form of a non-empty positioned write. -/
theorem storeWriteAt_eq (data b : List Nat) (off : Nat) (hb : b ≠ []) :
    storeWriteAt data b off =
      (data ++ List.replicate (off - data.length) 0).take off ++ b ++
      (data ++ List.replicate (off - data.length) 0).drop (off + b.length) := by
  rw [storeWriteAt, if_neg]
  simp [List.isEmpty_iff, hb]

/-- Two adjacent positioned writes compose into one. -/
theorem storeWriteAt_append (data c d : List Nat) (off : Nat) :
    storeWriteAt (storeWriteAt data c off) d (off + c.length) =
      storeWriteAt data (c ++ d) off := by
  rcases eq_or_ne c [] with hc | hc
  · subst hc; simp [storeWriteAt_nil]
  rcases eq_or_ne d [] with hd | hd
  · subst hd; simp [storeWriteAt_nil]
  have hcd : c ++ d ≠ [] := by simp [hc]
  rw [storeWriteAt_eq data c off hc, storeWriteAt_eq data (c ++ d) off hcd]
  set p := data ++ List.replicate (off - data.length) 0 with hp
  have hplen : off ≤ p.length := by
    rw [hp, List.length_append, List.length_replicate]
    omega
  have htake : (p.take off).length = off := by
    rw [List.length_take, Nat.min_eq_left hplen]
  rw [storeWriteAt_eq _ d _ hd]
  have hAlen : (p.take off ++ c ++ p.drop (off + c.length)).length =
      off + c.length + (p.length - (off + c.length)) := by
    simp [List.length_append, htake]
    omega
  have hpad0 : (off + c.length) -
      (p.take off ++ c ++ p.drop (off + c.length)).length = 0 := by
    rw [hAlen]; omega
  rw [hpad0]
  simp only [List.replicate_zero, List.append_nil]
  have h1 : (p.take off ++ c).length = off + c.length := by
    simp [htake]
  have htk : (p.take off ++ c ++ p.drop (off + c.length)).take (off + c.length) =
      p.take off ++ c :=
    List.take_left' h1
  have hdr : (p.take off ++ c ++ p.drop (off + c.length)).drop
      (off + c.length + d.length) = p.drop (off + c.length + d.length) := by
    rw [show off + c.length + d.length = (p.take off ++ c).length + d.length from by
          rw [h1],
        List.drop_append, List.drop_drop, h1]
  rw [htk, hdr]
  simp [List.append_assoc, Nat.add_assoc]

/-- Reading back exactly the bytes just written returns them with no
error. -/
theorem storeReadAt_writeAt (data b : List Nat) (off : Nat) (hb : b ≠ []) :
    storeReadAt (storeWriteAt data b off) b.length off = (b, none) := by
  rw [storeWriteAt_eq data b off hb]
  set p := data ++ List.replicate (off - data.length) 0 with hp
  have hplen : off ≤ p.length := by
    rw [hp, List.length_append, List.length_replicate]
    omega
  have htake : (p.take off).length = off := by
    rw [List.length_take, Nat.min_eq_left hplen]
  have hdrop : (p.take off ++ b ++ p.drop (off + b.length)).drop off =
      b ++ p.drop (off + b.length) := by
    rw [List.append_assoc]
    exact List.drop_left' htake
  rw [storeReadAt, hdrop, List.take_left]
  simp

/-- The copy loop of handleWriteFile writes the whole body contiguously
at the requested offset when the declared length matches the body and
the buffer size is positive. -/
theorem writeLoop_ok :
    ∀ (fuel : Nat) (body : List Nat) (heap : Heap) (ref bufSize : Nat) (off tr len : Int),
      1 ≤ bufSize → 0 ≤ off → 0 ≤ tr →
      body.length + 1 ≤ fuel →
      len = tr + body.length →
      writeLoop fuel heap ref bufSize off len body tr tr =
        some (Function.update heap ref (storeWriteAt (heap ref) body (off + tr).toNat),
              len, len) := by
  intro fuel
  induction fuel with
  | zero =>
      intro body _ _ _ _ _ _ _ _ hfuel _
      omega
  | succ fuel ih =>
      intro body heap ref bufSize off tr len hbuf hoff htr hfuel hlen
      rcases eq_or_ne body [] with hb | hb
      · subst hb
        rw [writeLoop]
        have hnl : ¬ tr < len := by
          simp only [List.length_nil, Nat.cast_zero, add_zero] at hlen
          omega
        rw [if_neg hnl, storeWriteAt_nil, Function.update_eq_self]
        have : len = tr := by
          simp only [List.length_nil, Nat.cast_zero, add_zero] at hlen
          omega
        rw [this]
      · have hpos : 0 < body.length := List.length_pos.mpr hb
        rw [writeLoop]
        have hlt : tr < len := by omega
        rw [if_pos hlt]
        have hchunk : (body.take bufSize).length = min bufSize body.length :=
          List.length_take _ _
        have hchunkpos : 0 < (body.take bufSize).length := by
          rw [hchunk]; omega
        rw [if_neg (by omega)]
        have hdroplen : (body.drop bufSize).length = body.length - bufSize :=
          List.length_drop _ _
        rw [ih (body.drop bufSize) _ ref bufSize off (tr + (body.take bufSize).length)
            len hbuf hoff (by omega) (by omega) (by rw [hlen, hdroplen, hchunk]; push_cast; omega)]
        have hidx : (off + (tr + ((body.take bufSize).length : Int))).toNat =
            (off + tr).toNat + (body.take bufSize).length := by omega
        rw [Function.update_idem, Function.update_same, hidx, storeWriteAt_append,
            List.take_append_drop]

/-- Routing of a PATCH request for the identifier in the path. -/
theorem routeRequest_patch (fs : FileServer) (heap : Heap) (req : Request) (id : FileID)
    (hm : req.method = .patch) (hp : req.path = '/' :: id) :
    routeRequest fs heap req =
      (handleWriteFile fs heap freshRW req id).map
        (fun r => (fs, r.2.1, r.1, r.2.2)) := by
  simp [routeRequest, hp, hm]

/-- A ranged write whose body matches the declared length: the whole
body lands contiguously at the offset in the writer store object and
the response is 204 with the X-Range header echoing offset-length. -/
theorem handleWriteFile_ok (fs : FileServer) (heap : Heap) (req : Request) (id : FileID)
    (h : Handle) (o : Int)
    (hw : fs.writers id = some h)
    (hrange : req.rangeHdr = .range o (req.body.length : Int))
    (ho : 0 ≤ o) (hbody : req.body ≠ []) (hbuf : 1 ≤ fs.writeBufferSize) :
    handleWriteFile fs heap freshRW req id =
      some ((freshRW.set HeaderRange (rangeValue o req.body.length)).writeHeader 204,
            Function.update heap h.ref (storeWriteAt (heap h.ref) req.body o.toNat),
            [HandleEvent.wroteAt id o req.body.length]) := by
  have hpos : 0 < req.body.length := List.length_pos.mpr hbody
  have ho' : ¬ o < 0 := by omega
  have hlen' : ¬ (req.body.length : Int) < MinumumBufferSize := by
    simp only [MinumumBufferSize]
    omega
  have hloop := writeLoop_ok (req.body.length + 1) req.body heap h.ref
    fs.writeBufferSize o 0 (req.body.length : Int) hbuf ho le_rfl le_rfl (by simp)
  rw [add_zero] at hloop
  simp only [handleWriteFile, hrange, requestOffsetAndLength, if_neg ho', if_neg hlen',
    hw, hloop]
  simp

/-- A ranged read that finds exactly the requested bytes with no error:
206 with X-IsEOF false, X-Range echoing offset-count, and the bytes as
body. -/
theorem handleReadFile_ok (fs : FileServer) (heap : Heap) (req : Request) (id : FileID)
    (h : Handle) (o len : Int) (bytes : List Nat)
    (hr : fs.readers id = some h)
    (hrange : req.rangeHdr = .range o len)
    (ho : 0 ≤ o) (hlen : 1 ≤ len)
    (hread : storeReadAt (heap h.ref) len.toNat o.toNat = (bytes, none)) :
    handleReadFile fs heap freshRW req id =
      ((((freshRW.set HeaderIsEOF (boolString false)).set HeaderRange
          (rangeValue o bytes.length)).writeHeader 206).writeBytes bytes, heap,
       [HandleEvent.readAt id o len]) := by
  have ho' : ¬ o < 0 := by omega
  have hlen' : ¬ len < MinumumBufferSize := by
    simp only [MinumumBufferSize]
    omega
  simp only [handleReadFile, hr, hrange, requestOffsetAndLength, if_neg ho', if_neg hlen',
    hread]
  simp

/-- Claim C2 as amended: for every NON-EMPTY byte string b and offset
o at least 0, with a writable and a readable handle registered under
one identifier over the same store and a positive write buffer size, a
ranged PATCH of b at o answers 204, and a following ranged GET of
length b at o answers 206 with exactly the bytes b as body. -/
theorem claim_C2_write_read_roundtrip (fs : FileServer) (heap : Heap) (id : FileID)
    (rh wh : Handle) (b : List Nat) (o : Int) (wreq rreq : Request)
    (hr : fs.readers id = some rh) (hw : fs.writers id = some wh)
    (href : rh.ref = wh.ref)
    (hb : b ≠ []) (ho : 0 ≤ o) (hbuf : 1 ≤ fs.writeBufferSize)
    (hsecw : presentedSecret wreq = fs.sharedSecret) (hmw : wreq.method = .patch)
    (hpw : wreq.path = '/' :: id) (hrw : wreq.rangeHdr = .range o (b.length : Int))
    (hbw : wreq.body = b)
    (hsecr : presentedSecret rreq = fs.sharedSecret) (hmr : rreq.method = .get)
    (hpr : rreq.path = '/' :: id) (hrr : rreq.rangeHdr = .range o (b.length : Int)) :
    ∃ heap₂ respW evW respR evR,
      ServeHTTP fs heap wreq = some (fs, heap₂, respW, evW) ∧
      respW.status = some 204 ∧
      ServeHTTP fs heap₂ rreq = some (fs, heap₂, respR, evR) ∧
      respR.status = some 206 ∧
      respR.body = b := by
  have hwo := handleWriteFile_ok fs heap wreq id wh o hw
    (by rw [hrw, hbw]) ho (by rw [hbw]; exact hb) hbuf
  rw [hbw] at hwo
  have hheap : Function.update heap wh.ref
      (storeWriteAt (heap wh.ref) b o.toNat) rh.ref =
      storeWriteAt (heap wh.ref) b o.toNat := by
    rw [href, Function.update_same]
  have hread : storeReadAt
      (Function.update heap wh.ref (storeWriteAt (heap wh.ref) b o.toNat) rh.ref)
      ((b.length : Int)).toNat o.toNat = (b, none) := by
    rw [hheap]
    simpa using storeReadAt_writeAt (heap wh.ref) b o.toNat hb
  have hro := handleReadFile_ok fs
    (Function.update heap wh.ref (storeWriteAt (heap wh.ref) b o.toNat))
    rreq id rh o (b.length : Int) b hr hrr ho
    (by have := List.length_pos.mpr hb; omega) hread
  refine ⟨Function.update heap wh.ref (storeWriteAt (heap wh.ref) b o.toNat),
    (freshRW.set HeaderRange (rangeValue o (b.length : Int))).writeHeader 204,
    [HandleEvent.wroteAt id o (b.length : Int)],
    (((freshRW.set HeaderIsEOF (boolString false)).set HeaderRange
      (rangeValue o (b.length : Int))).writeHeader 206).writeBytes b,
    [HandleEvent.readAt id o (b.length : Int)], ?_, ?_, ?_, ?_, ?_⟩
  · rw [serveHTTP_route fs heap wreq hsecw, routeRequest_patch fs heap wreq id hmw hpw,
        hwo]
    rfl
  · rfl
  · rw [serveHTTP_route _ _ rreq hsecr, routeRequest_get _ _ rreq id hmr hpr, hro]
  · rfl
  · show ([] : List Nat) ++ b = b
    simp

/-- Witness for claim C2: writing the five bytes 7..11 at offset 2
through f (write buffer 4, so the loop takes two rounds) and reading
them back. -/
theorem claim_C2_witness :
    ∃ heap₂ respW evW respR evR,
      ServeHTTP fsPair (fun _ => [])
        { method := Method.patch, path := ['/', 'f'], secretHeader := "s",
          secretQuery := "", rangeHdr := .range 2 5, body := [7, 8, 9, 10, 11] } =
        some (fsPair, heap₂, respW, evW) ∧
      respW.status = some 204 ∧
      ServeHTTP fsPair heap₂
        { method := Method.get, path := ['/', 'f'], secretHeader := "s",
          secretQuery := "", rangeHdr := .range 2 5, body := [] } =
        some (fsPair, heap₂, respR, evR) ∧
      respR.status = some 206 ∧
      respR.body = [7, 8, 9, 10, 11] :=
  claim_C2_write_read_roundtrip fsPair (fun _ => []) ['f'] readerF writerF
    [7, 8, 9, 10, 11] 2
    { method := Method.patch, path := ['/', 'f'], secretHeader := "s",
      secretQuery := "", rangeHdr := .range 2 5, body := [7, 8, 9, 10, 11] }
    { method := Method.get, path := ['/', 'f'], secretHeader := "s",
      secretQuery := "", rangeHdr := .range 2 5, body := [] }
    rfl rfl rfl (by decide) (by decide) (by decide)
    rfl rfl rfl rfl rfl rfl rfl rfl rfl

/-- Counterexample to claim C2 as stated: for the EMPTY byte string,
the ranged write is rejected with 400 (length 0 is below
MinumumBufferSize) and the ranged read of length 0 is rejected the same
way, so the write-then-read round trip claimed for every byte string
fails at b empty. -/
theorem claim_C2_counterexample :
    ∃ respW evW respR evR,
      ServeHTTP fsPair (fun _ => [])
        { method := Method.patch, path := ['/', 'f'], secretHeader := "s",
          secretQuery := "", rangeHdr := .range 0 0, body := [] } =
        some (fsPair, (fun _ => []), respW, evW) ∧
      respW.status = some 400 ∧ respW.status ≠ some 204 ∧
      ServeHTTP fsPair (fun _ => [])
        { method := Method.get, path := ['/', 'f'], secretHeader := "s",
          secretQuery := "", rangeHdr := .range 0 0, body := [] } =
        some (fsPair, (fun _ => []), respR, evR) ∧
      respR.status = some 400 ∧ respR.status ≠ some 206 := by
  refine ⟨_, _, _, _, rfl, rfl, by decide, rfl, rfl, by decide⟩

end NetworkFile
